import Mathlib

/-
Shallow embedding of the JobScanAI multi-score scoring engine
(the canonical 3-component engine: visa, resume match, job relevance,
combined into an overall score with a recommendation label).

Numbers are modelled by the rationals; JavaScript rounding
(Math.round, half toward positive infinity) is modelled by jround.
Optional JavaScript fields are modelled by Option; JavaScript
truthiness on numbers (0 is falsy) and on strings (the empty string is
falsy) is modelled explicitly where the source relies on it.
Display-only metadata strings that interpolate numbers into free text
are omitted from breakdown records; every score, count, status and
match-type field is kept.
-/

namespace JobScan

/-- JavaScript Math.round on a rational: floor of x + 1/2. -/
def jround (q : ℚ) : ℤ := ⌊q + 1 / 2⌋

/-- JavaScript `x || d` for an optional number: absent and 0 are falsy. -/
def jsOrNum (o : Option ℚ) (d : ℚ) : ℚ :=
  match o with
  | none => d
  | some x => if x = 0 then d else x

/-- JavaScript truthiness of an optional number: false for absent and 0. -/
def truthyNum (o : Option ℚ) : Bool :=
  match o with
  | none => false
  | some x => x != 0

/-- JavaScript `s || d` for an optional string: absent and empty are falsy. -/
def jsOrStr (o : Option String) (d : String) : String :=
  match o with
  | none => d
  | some s => if s = "" then d else s

/-- Character-list version of startsWith, first argument the candidate start. -/
def startsWithChars : List Char → List Char → Bool
  | [], _ => true
  | _ :: _, [] => false
  | n :: ns, h :: hs => n == h && startsWithChars ns hs

/-- Character-list substring test: does the second list occur inside the first. -/
def hasSubstrChars : List Char → List Char → Bool
  | [], needle => needle.isEmpty
  | h :: rest, needle => startsWithChars needle (h :: rest) || hasSubstrChars rest needle

/-- JavaScript String.prototype.includes: needle occurs inside hay. -/
def jsIncludes (hay needle : String) : Bool :=
  hasSubstrChars hay.toList needle.toList

/-- JavaScript toLowerCase, mapped characterwise (structurally reducible). -/
def jsToLower (s : String) : String := String.mk (s.data.map Char.toLower)

/-- JavaScript toUpperCase, mapped characterwise (structurally reducible). -/
def jsToUpper (s : String) : String := String.mk (s.data.map Char.toUpper)

/-- JavaScript `x <= m` where m may be undefined: false when m is absent. -/
def jsLeOpt (x : ℚ) (m : Option ℚ) : Bool :=
  match m with
  | none => false
  | some v => x ≤ v

/-- JavaScript `x > m` where m may be undefined: false when m is absent. -/
def jsGtOpt (x : ℚ) (m : Option ℚ) : Bool :=
  match m with
  | none => false
  | some v => v < x

/-- Community signal counts inside a visa intelligence record. -/
structure CommunitySignals where
  positive_count : ℕ
  negative_count : ℕ
  deriving DecidableEq, Repr

/-- Visa intelligence input record, as read by calculateVisaScore. -/
structure VisaIntel where
  registry_match : Bool := false
  recent_activity : Bool := false
  recent_activity_count : ℕ := 0
  community_signals : Option CommunitySignals := none
  jd_keywords_found : Bool := false
  explicit_no_sponsorship : Bool := false
  deriving DecidableEq, Repr

/-- Normalized job record, the fields read by the scoring engine. -/
structure Job where
  title : Option String := none
  company : Option String := none
  location : Option String := none
  country_code : Option String := none
  skills : List String := []
  domains : List String := []
  is_remote : Bool := false
  salary_min : Option ℚ := none
  salary_max : Option ℚ := none
  salary_currency : Option String := none
  experience_min : Option ℚ := none
  experience_max : Option ℚ := none
  deriving DecidableEq, Repr

/-- Salary expectation object on the user profile. -/
structure SalaryExpectation where
  min : Option ℚ := none
  max : Option ℚ := none
  deriving DecidableEq, Repr

/-- Role flexibility object on the user profile. -/
structure RoleFlexibility where
  preferred : List String := []
  acceptable : List String := []
  deriving DecidableEq, Repr

/-- User profile record, the fields read by the scoring engine. -/
structure Profile where
  skills_must_have_domain : List String := []
  skills_must_have_core_pm : List String := []
  skills_good_to_have : List String := []
  skills_okay_to_have : List String := []
  preferred_locations : List String := []
  target_countries : List String := []
  salary_expectation : Option SalaryExpectation := none
  role_flexibility : Option RoleFlexibility := none
  years_of_experience : Option ℚ := none
  industries : List String := []
  deriving DecidableEq, Repr

/-- Scoring configuration: optional overrides for the seven weights. -/
structure ScoringConfig where
  visa_score_weight : Option ℚ := none
  resume_score_weight : Option ℚ := none
  relevance_score_weight : Option ℚ := none
  domain_skills_weight : Option ℚ := none
  core_pm_skills_weight : Option ℚ := none
  tools_skills_weight : Option ℚ := none
  tech_skills_weight : Option ℚ := none
  deriving DecidableEq, Repr

/-- Effective weights after merging config with defaults. -/
structure Weights where
  visa_score_weight : ℚ
  resume_score_weight : ℚ
  relevance_score_weight : ℚ
  domain_skills_weight : ℚ
  core_pm_skills_weight : ℚ
  tools_skills_weight : ℚ
  tech_skills_weight : ℚ
  deriving DecidableEq, Repr

/-- Default-merging of the config, as in calculateMultiScore:
    each weight is `config.field || default`, so 0 falls back to the default. -/
def resolveWeights (config : ScoringConfig) : Weights where
  visa_score_weight := jsOrNum config.visa_score_weight (40 / 100)
  resume_score_weight := jsOrNum config.resume_score_weight (35 / 100)
  relevance_score_weight := jsOrNum config.relevance_score_weight (25 / 100)
  domain_skills_weight := jsOrNum config.domain_skills_weight (50 / 100)
  core_pm_skills_weight := jsOrNum config.core_pm_skills_weight (30 / 100)
  tools_skills_weight := jsOrNum config.tools_skills_weight (15 / 100)
  tech_skills_weight := jsOrNum config.tech_skills_weight (5 / 100)

/-- Currency conversion rates to GBP; unknown currencies default to 1. -/
def currencyRate (currency : Option String) : ℚ :=
  match currency with
  | some "GBP" => 1
  | some "USD" => 79 / 100
  | some "EUR" => 85 / 100
  | some "AUD" => 52 / 100
  | some "CAD" => 58 / 100
  | some "SEK" => 74 / 1000
  | some "AED" => 21 / 100
  | _ => 1

/-- normalizeSalaryToGBP from the source. -/
def normalizeSalaryToGBP (amount : ℚ) (currency : Option String) : ℚ :=
  amount * currencyRate currency

/-- Per-country minimum visa salary thresholds. -/
def countryThreshold (code : Option String) : Option ℚ :=
  match code with
  | some "GB" => some 38700
  | some "NL" => some 45000
  | some "DE" => some 45300
  | some "SE" => some 156000
  | some "AU" => some 70000
  | some "CA" => some 54000
  | _ => none

/-- Result of the salary threshold check. -/
structure ThresholdCheck where
  meets_threshold : Bool
  close_to_threshold : Bool
  deriving DecidableEq, Repr

/-- checkSalaryThreshold from the source. -/
def checkSalaryThreshold (job : Job) (_profile : Profile) : ThresholdCheck :=
  match countryThreshold job.country_code, job.salary_min with
  | some threshold, some salaryMin =>
    if salaryMin = 0 then ⟨false, false⟩
    else
      let jobSalaryGBP := normalizeSalaryToGBP salaryMin job.salary_currency
      let thresholdGBP :=
        normalizeSalaryToGBP threshold
          (if job.country_code = some "SE" then some "SEK" else some "GBP")
      if thresholdGBP ≤ jobSalaryGBP then ⟨true, false⟩
      else if thresholdGBP * (9 / 10) ≤ jobSalaryGBP then ⟨false, true⟩
      else ⟨false, false⟩
  | _, _ => ⟨false, false⟩

/-- A visa sub-factor breakdown entry: a score and a status label. -/
structure VisaFactor where
  score : ℤ
  status : String
  deriving DecidableEq, Repr

/-- Recent-activity breakdown entry; count is present only on the active branch. -/
structure ActivityFactor where
  score : ℤ
  count : Option ℕ
  status : String
  deriving DecidableEq, Repr

/-- Community-signals breakdown entry; counts only when data is present. -/
structure CommunityFactor where
  score : ℤ
  positive : Option ℕ
  negative : Option ℕ
  status : Option String
  deriving DecidableEq, Repr

/-- A recorded penalty entry. -/
structure PenaltyEntry where
  reason : String
  points : ℤ
  deriving DecidableEq, Repr

/-- Breakdown of the visa score. -/
structure VisaBreakdown where
  registry_match : VisaFactor
  recent_activity : ActivityFactor
  community_signals : CommunityFactor
  jd_keywords : VisaFactor
  salary_threshold : VisaFactor
  penalties : List PenaltyEntry
  deriving DecidableEq, Repr

/-- Rating labels from getRating. -/
def getRating (score : ℤ) : String :=
  if score ≥ 90 then "⭐⭐⭐⭐⭐ EXCELLENT"
  else if score ≥ 80 then "⭐⭐⭐⭐ STRONG"
  else if score ≥ 70 then "⭐⭐⭐ GOOD"
  else if score ≥ 60 then "⭐⭐ FAIR"
  else if score ≥ 50 then "⭐ WEAK"
  else "❌ POOR"

/-- Visa score result. -/
structure VisaScore where
  total : ℤ
  breakdown : VisaBreakdown
  rating : String
  deriving DecidableEq, Repr

/-- Registry-match component of the visa score. -/
def registryScore (visaIntel : VisaIntel) : ℤ :=
  if visaIntel.registry_match then 40 else 0

/-- Recent-activity component of the visa score: guarded by the
    recent_activity flag, then min(20, count * 5). -/
def activityScore (visaIntel : VisaIntel) : ℤ :=
  if visaIntel.recent_activity then
    min 20 ((visaIntel.recent_activity_count : ℤ) * 5)
  else 0

/-- Community-signals component of the visa score. -/
def communityScore (visaIntel : VisaIntel) : ℤ :=
  match visaIntel.community_signals with
  | some cs => min 20 ((cs.positive_count : ℤ) * 2)
  | none => 0

/-- JD-keywords component of the visa score. -/
def jdScore (visaIntel : VisaIntel) : ℤ :=
  if visaIntel.jd_keywords_found then 10 else 0

/-- Salary-threshold component of the visa score. -/
def salaryThresholdScore (job : Job) (profile : Profile) : ℤ :=
  let salaryCheck := checkSalaryThreshold job profile
  if salaryCheck.meets_threshold then 10
  else if salaryCheck.close_to_threshold then 5
  else 0

/-- Sum of the five additive visa components, before penalties. -/
def visaAdditiveSum (job : Job) (visaIntel : VisaIntel) (profile : Profile) : ℤ :=
  registryScore visaIntel + activityScore visaIntel + communityScore visaIntel +
    jdScore visaIntel + salaryThresholdScore job profile

/-- Penalty points: 30 when explicit_no_sponsorship is set. -/
def visaPenalties (visaIntel : VisaIntel) : ℤ :=
  if visaIntel.explicit_no_sponsorship then 30 else 0

/-- calculateVisaScore from the source. -/
def calculateVisaScore (job : Job) (visaIntel : VisaIntel) (profile : Profile) :
    VisaScore :=
  let registryB : VisaFactor :=
    if visaIntel.registry_match then ⟨40, "confirmed"⟩ else ⟨0, "not_found"⟩
  let activityB : ActivityFactor :=
    if visaIntel.recent_activity then
      ⟨activityScore visaIntel, some visaIntel.recent_activity_count, "active"⟩
    else ⟨0, none, "unknown"⟩
  let communityB : CommunityFactor :=
    match visaIntel.community_signals with
    | some cs =>
      ⟨communityScore visaIntel, some cs.positive_count, some cs.negative_count, none⟩
    | none => ⟨0, none, none, some "no_data"⟩
  let jdB : VisaFactor :=
    if visaIntel.jd_keywords_found then ⟨10, "explicit_mention"⟩
    else ⟨0, "not_mentioned"⟩
  let salaryCheck := checkSalaryThreshold job profile
  let salaryB : VisaFactor :=
    if salaryCheck.meets_threshold then ⟨10, "above_minimum"⟩
    else if salaryCheck.close_to_threshold then ⟨5, "close_to_minimum"⟩
    else ⟨0, "below_minimum"⟩
  let penaltyList : List PenaltyEntry :=
    if visaIntel.explicit_no_sponsorship then
      [⟨"explicit_no_sponsorship", -30⟩]
    else []
  let score := max 0 (visaAdditiveSum job visaIntel profile - visaPenalties visaIntel)
  { total := min 100 score
    breakdown :=
      { registry_match := registryB
        recent_activity := activityB
        community_signals := communityB
        jd_keywords := jdB
        salary_threshold := salaryB
        penalties := penaltyList }
    rating := getRating score }

/-- calculateSkillMatch from the source: percentage of user skills that
    substring-match (bidirectionally) some job skill; 0 for an empty user set. -/
def calculateSkillMatch (userSkills jobSkills : List String) : ℤ :=
  if userSkills = [] then 0
  else
    let matched := userSkills.filter fun us =>
      jobSkills.any fun js => jsIncludes js us || jsIncludes us js
    jround ((matched.length : ℚ) / (userSkills.length : ℚ) * 100)

/-- getMatchedSkills from the source. -/
def getMatchedSkills (userSkills jobSkills : List String) : List String :=
  userSkills.filter fun us =>
    jobSkills.any fun js => jsIncludes js us || jsIncludes us js

/-- One resume tier breakdown entry. -/
structure TierFactor where
  score : ℤ
  max : ℤ
  match_percentage : ℤ
  matched_skills : List String
  deriving DecidableEq, Repr

/-- Breakdown of the resume match score. -/
structure ResumeBreakdown where
  domain_match : TierFactor
  core_pm_match : TierFactor
  tools_match : TierFactor
  technical_match : TierFactor
  deriving DecidableEq, Repr

/-- Resume match score result. -/
structure ResumeScore where
  total : ℤ
  breakdown : ResumeBreakdown
  rating : String
  deriving DecidableEq, Repr

/-- Points for one resume tier: round(maxPoints * weight * 2 * matchPct / 100). -/
def tierPoints (maxPoints weight : ℚ) (matchPct : ℤ) : ℤ :=
  jround (maxPoints * weight * 2 * ((matchPct : ℚ) / 100))

/-- calculateResumeMatchScore from the source. -/
def calculateResumeMatchScore (job : Job) (profile : Profile) (weights : Weights) :
    ResumeScore :=
  let jobSkills := job.skills.map jsToLower
  let jobDomains := job.domains.map jsToLower
  let domainSkills := profile.skills_must_have_domain.map jsToLower
  let domainMatch := calculateSkillMatch domainSkills (jobSkills ++ jobDomains)
  let domainScore := tierPoints 50 weights.domain_skills_weight domainMatch
  let corePMSkills := profile.skills_must_have_core_pm.map jsToLower
  let pmMatch := calculateSkillMatch corePMSkills jobSkills
  let pmScore := tierPoints 30 weights.core_pm_skills_weight pmMatch
  let toolsSkills := profile.skills_good_to_have.map jsToLower
  let toolsMatch := calculateSkillMatch toolsSkills jobSkills
  let toolsScore := tierPoints 15 weights.tools_skills_weight toolsMatch
  let techSkills := profile.skills_okay_to_have.map jsToLower
  let techMatch := calculateSkillMatch techSkills jobSkills
  let techScore := tierPoints 5 weights.tech_skills_weight techMatch
  let score := domainScore + pmScore + toolsScore + techScore
  { total := min 100 score
    breakdown :=
      { domain_match :=
          ⟨domainScore, 50, domainMatch, getMatchedSkills domainSkills (jobSkills ++ jobDomains)⟩
        core_pm_match := ⟨pmScore, 30, pmMatch, getMatchedSkills corePMSkills jobSkills⟩
        tools_match := ⟨toolsScore, 15, toolsMatch, getMatchedSkills toolsSkills jobSkills⟩
        technical_match := ⟨techScore, 5, techMatch, getMatchedSkills techSkills jobSkills⟩ }
    rating := getRating score }

/-- One relevance factor breakdown entry: score and match-type tag. -/
structure RelFactor where
  score : ℤ
  match_type : String
  deriving DecidableEq, Repr

/-- calculateLocationMatch from the source. -/
def calculateLocationMatch (job : Job) (profile : Profile) : RelFactor :=
  let jobLocation := jsToLower (jsOrStr job.location "")
  let jobCountry := jsToUpper (jsOrStr job.country_code "")
  let preferredLocations := profile.preferred_locations.map jsToLower
  let targetCountries := profile.target_countries.map jsToUpper
  if preferredLocations.any fun loc => jsIncludes jobLocation loc then
    ⟨25, "preferred_city"⟩
  else if targetCountries.contains jobCountry then ⟨20, "target_country"⟩
  else if job.is_remote then ⟨15, "remote"⟩
  else ⟨0, "no_match"⟩

/-- Salary expectation with the JS default empty object. -/
def expectationOf (profile : Profile) : SalaryExpectation :=
  profile.salary_expectation.getD ⟨none, none⟩

/-- calculateSalaryMatch from the source. -/
def calculateSalaryMatch (job : Job) (profile : Profile) : RelFactor :=
  let expectation := expectationOf profile
  if !truthyNum expectation.min || !truthyNum job.salary_min then
    ⟨12, "unknown"⟩
  else
    let jobSalaryGBP := normalizeSalaryToGBP (jsOrNum job.salary_min 0) job.salary_currency
    let minExpected := jsOrNum expectation.min 0
    let maxExpected := expectation.max
    if minExpected ≤ jobSalaryGBP ∧ jsLeOpt jobSalaryGBP maxExpected then
      ⟨25, "in_range"⟩
    else if jsGtOpt jobSalaryGBP maxExpected then ⟨25, "above_range"⟩
    else if minExpected * (9 / 10) ≤ jobSalaryGBP then ⟨15, "slightly_below"⟩
    else ⟨0, "below_minimum"⟩

/-- calculateRoleMatch from the source. -/
def calculateRoleMatch (job : Job) (profile : Profile) : RelFactor :=
  let jobTitle := jsToLower (jsOrStr job.title "")
  let flexibility := profile.role_flexibility.getD ⟨[], []⟩
  let preferredRoles := flexibility.preferred.map jsToLower
  let acceptableRoles := flexibility.acceptable.map jsToLower
  if preferredRoles.any fun role => jsIncludes jobTitle role || jsIncludes role jobTitle then
    ⟨25, "preferred"⟩
  else if acceptableRoles.any fun role => jsIncludes jobTitle role || jsIncludes role jobTitle then
    ⟨20, "acceptable"⟩
  else if ["product", "manager", "pm", "lead"].any fun kw => jsIncludes jobTitle kw then
    ⟨10, "partial"⟩
  else ⟨0, "no_match"⟩

/-- calculateExperienceMatch from the source. -/
def calculateExperienceMatch (job : Job) (profile : Profile) : RelFactor :=
  let userExp := jsOrNum profile.years_of_experience 0
  let jobExpMin := jsOrNum job.experience_min 0
  let jobExpMax := jsOrNum job.experience_max 99
  if jobExpMin ≤ userExp ∧ userExp ≤ jobExpMax then ⟨15, "perfect"⟩
  else if jobExpMax < userExp ∧ userExp ≤ jobExpMax + 2 then ⟨12, "slightly_over"⟩
  else if userExp < jobExpMin ∧ jobExpMin - 2 ≤ userExp then ⟨10, "slightly_under"⟩
  else ⟨0, "mismatch"⟩

/-- The fixed common-industries keyword list. -/
def commonIndustries : List String := ["fintech", "finance", "banking", "payments", "tech"]

/-- calculateIndustryMatch from the source. -/
def calculateIndustryMatch (job : Job) (profile : Profile) : RelFactor :=
  let jobDomains := job.domains.map jsToLower
  let userIndustries := profile.industries.map jsToLower
  if userIndustries.any fun ind => jobDomains.contains ind then ⟨10, "perfect"⟩
  else if commonIndustries.any fun ci =>
      jobDomains.contains ci && userIndustries.contains ci then
    ⟨7, "related"⟩
  else ⟨3, "neutral"⟩

/-- Breakdown of the relevance score. -/
structure RelevanceBreakdown where
  location : RelFactor
  salary : RelFactor
  role : RelFactor
  experience : RelFactor
  industry : RelFactor
  deriving DecidableEq, Repr

/-- Relevance score result. -/
structure RelevanceScore where
  total : ℤ
  breakdown : RelevanceBreakdown
  rating : String
  deriving DecidableEq, Repr

/-- calculateJobRelevanceScore from the source. -/
def calculateJobRelevanceScore (job : Job) (profile : Profile) : RelevanceScore :=
  let locationScore := calculateLocationMatch job profile
  let salaryScore := calculateSalaryMatch job profile
  let roleScore := calculateRoleMatch job profile
  let experienceScore := calculateExperienceMatch job profile
  let industryScore := calculateIndustryMatch job profile
  let score := locationScore.score + salaryScore.score + roleScore.score +
    experienceScore.score + industryScore.score
  { total := min 100 score
    breakdown :=
      { location := locationScore
        salary := salaryScore
        role := roleScore
        experience := experienceScore
        industry := industryScore }
    rating := getRating score }

/-- Recommendation record. -/
structure Recommendation where
  action : String
  priority : String
  confidence : String
  reason : String
  deriving DecidableEq, Repr

/-- getRecommendation from the source; the resume score argument is unused there. -/
def getRecommendation (overallScore visaScore _resumeScore : ℤ) : Recommendation :=
  if overallScore ≥ 85 ∧ visaScore ≥ 80 then
    ⟨"APPLY NOW", "HIGH", "Very High",
      "Strong visa sponsorship likelihood and excellent profile match"⟩
  else if overallScore ≥ 75 ∧ visaScore ≥ 60 then
    ⟨"STRONGLY CONSIDER", "HIGH", "High", "Good visa chances and solid profile fit"⟩
  else if overallScore ≥ 65 then
    ⟨"CONSIDER", "MEDIUM", "Moderate",
      "Decent match but verify visa sponsorship availability"⟩
  else if overallScore ≥ 50 then
    ⟨"REVIEW CAREFULLY", "LOW", "Low",
      "Marginal fit - apply only if few better options"⟩
  else ⟨"SKIP", "VERY LOW", "Very Low", "Poor match on multiple factors"⟩

/-- Full breakdown returned by calculateMultiScore. -/
structure FullBreakdown where
  visa : VisaScore
  resume : ResumeScore
  relevance : RelevanceScore
  weights : Weights
  deriving DecidableEq, Repr

/-- Result of calculateMultiScore. -/
structure MultiScoreResult where
  overall_score : ℤ
  visa_score : ℤ
  resume_match_score : ℤ
  job_relevance_score : ℤ
  recommendation : Recommendation
  breakdown : FullBreakdown
  deriving DecidableEq, Repr

/-- calculateMultiScore from the source. -/
def calculateMultiScore (job : Job) (profile : Profile) (visaIntel : VisaIntel)
    (config : ScoringConfig) : MultiScoreResult :=
  let weights := resolveWeights config
  let visaScore := calculateVisaScore job visaIntel profile
  let resumeScore := calculateResumeMatchScore job profile weights
  let relevanceScore := calculateJobRelevanceScore job profile
  let overallScore := jround
    ((visaScore.total : ℚ) * weights.visa_score_weight +
      (resumeScore.total : ℚ) * weights.resume_score_weight +
      (relevanceScore.total : ℚ) * weights.relevance_score_weight)
  { overall_score := min 100 (max 0 overallScore)
    visa_score := visaScore.total
    resume_match_score := resumeScore.total
    job_relevance_score := relevanceScore.total
    recommendation := getRecommendation overallScore visaScore.total resumeScore.total
    breakdown :=
      { visa := visaScore
        resume := resumeScore
        relevance := relevanceScore
        weights := weights } }

/-! General lemmas about the embedded operations. -/

theorem jround_intCast (n : ℤ) : jround (n : ℚ) = n := by
  rw [jround, Int.floor_eq_iff]
  constructor
  · linarith
  · have : ((n + 1 : ℤ) : ℚ) = (n : ℚ) + 1 := by push_cast; ring
    linarith [this]

theorem jround_nonneg {q : ℚ} (h : 0 ≤ q) : 0 ≤ jround q := by
  rw [jround]
  exact Int.le_floor.mpr (by push_cast; linarith)

theorem jround_mono {q r : ℚ} (h : q ≤ r) : jround q ≤ jround r :=
  Int.floor_mono (by linarith)

theorem jround_le {q : ℚ} {n : ℤ} (h : q ≤ (n : ℚ)) : jround q ≤ n := by
  have := jround_mono h
  rwa [jround_intCast] at this

theorem jround_eq_of {q : ℚ} {n : ℤ} (h : q = (n : ℚ)) : jround q = n := by
  rw [h, jround_intCast]

theorem skillMatch_nonneg (u j : List String) : 0 ≤ calculateSkillMatch u j := by
  rw [calculateSkillMatch]
  split_ifs
  · exact le_refl 0
  · exact jround_nonneg (by positivity)

theorem skillMatch_le_100 (u j : List String) : calculateSkillMatch u j ≤ 100 := by
  rw [calculateSkillMatch]
  split_ifs with h
  · norm_num
  · apply jround_le
    have hn : (0 : ℚ) < u.length := by
      have := List.length_pos.mpr h
      exact_mod_cast this
    have hm : ((u.filter fun us =>
        j.any fun js => jsIncludes js us || jsIncludes us js).length : ℚ) ≤ u.length := by
      exact_mod_cast List.length_filter_le _ u
    have h1 : ((u.filter fun us =>
        j.any fun js => jsIncludes js us || jsIncludes us js).length : ℚ) / u.length ≤ 1 :=
      (div_le_one hn).mpr hm
    have h0 : (0 : ℚ) ≤ ((u.filter fun us =>
        j.any fun js => jsIncludes js us || jsIncludes us js).length : ℚ) / u.length := by
      positivity
    push_cast
    nlinarith

theorem tierPoints_nonneg {mp w : ℚ} {p : ℤ} (hmp : 0 ≤ mp) (hw : 0 ≤ w)
    (hp : 0 ≤ p) : 0 ≤ tierPoints mp w p := by
  apply jround_nonneg
  have : (0 : ℚ) ≤ (p : ℚ) := by exact_mod_cast hp
  positivity

theorem tierPoints_le {mp w : ℚ} {p : ℤ} {c : ℤ} (hmp : 0 ≤ mp) (_hw0 : 0 ≤ w)
    (hw1 : w ≤ 1) (hp0 : 0 ≤ p) (hp1 : p ≤ 100) (hc : 2 * mp ≤ (c : ℚ)) :
    tierPoints mp w p ≤ c := by
  apply jround_le
  have hpq : (0 : ℚ) ≤ (p : ℚ) := by exact_mod_cast hp0
  have hpq1 : (p : ℚ) ≤ 100 := by exact_mod_cast hp1
  have hfrac0 : (0 : ℚ) ≤ (p : ℚ) / 100 := by positivity
  have hfrac1 : (p : ℚ) / 100 ≤ 1 := by
    rw [div_le_one (by norm_num : (0:ℚ) < 100)]
    exact hpq1
  have h1 : w * ((p : ℚ) / 100) ≤ 1 := mul_le_one₀ hw1 hfrac0 hfrac1
  have h2 : mp * w * 2 * ((p : ℚ) / 100) = 2 * mp * (w * ((p : ℚ) / 100)) := by ring
  rw [h2]
  calc 2 * mp * (w * ((p : ℚ) / 100)) ≤ 2 * mp * 1 :=
        mul_le_mul_of_nonneg_left h1 (by linarith)
    _ = 2 * mp := by ring
    _ ≤ (c : ℚ) := hc

/-- Range predicate for an emitted score. -/
def InRange (z : ℤ) : Prop := 0 ≤ z ∧ z ≤ 100

theorem clamp_range (x : ℤ) : InRange (min 100 (max 0 x)) := by
  constructor <;> omega

theorem visa_breakdown_registry (j : Job) (v : VisaIntel) (p : Profile) :
    (calculateVisaScore j v p).breakdown.registry_match.score = registryScore v := by
  cases h : v.registry_match <;>
    simp [calculateVisaScore, registryScore, h]

theorem visa_breakdown_activity (j : Job) (v : VisaIntel) (p : Profile) :
    (calculateVisaScore j v p).breakdown.recent_activity.score = activityScore v := by
  cases h : v.recent_activity <;>
    simp [calculateVisaScore, activityScore, h]

theorem visa_breakdown_community (j : Job) (v : VisaIntel) (p : Profile) :
    (calculateVisaScore j v p).breakdown.community_signals.score = communityScore v := by
  cases h : v.community_signals <;>
    simp [calculateVisaScore, communityScore, h]

theorem visa_breakdown_jd (j : Job) (v : VisaIntel) (p : Profile) :
    (calculateVisaScore j v p).breakdown.jd_keywords.score = jdScore v := by
  cases h : v.jd_keywords_found <;>
    simp [calculateVisaScore, jdScore, h]

theorem visa_breakdown_salary (j : Job) (v : VisaIntel) (p : Profile) :
    (calculateVisaScore j v p).breakdown.salary_threshold.score =
      salaryThresholdScore j p := by
  rw [calculateVisaScore, salaryThresholdScore]
  split_ifs <;> rfl

theorem visa_total_eq (j : Job) (v : VisaIntel) (p : Profile) :
    (calculateVisaScore j v p).total =
      min 100 (max 0 (visaAdditiveSum j v p - visaPenalties v)) := rfl

theorem registryScore_range (v : VisaIntel) :
    0 ≤ registryScore v ∧ registryScore v ≤ 40 := by
  rw [registryScore]; split_ifs <;> omega

theorem activityScore_range (v : VisaIntel) :
    0 ≤ activityScore v ∧ activityScore v ≤ 20 := by
  rw [activityScore]
  split_ifs
  · constructor
    · exact le_min (by norm_num) (by positivity)
    · exact min_le_left _ _
  · omega

theorem communityScore_range (v : VisaIntel) :
    0 ≤ communityScore v ∧ communityScore v ≤ 20 := by
  cases h : v.community_signals with
  | none => simp [communityScore, h]
  | some cs =>
    simp only [communityScore, h]
    constructor
    · exact le_min (by norm_num) (by positivity)
    · exact min_le_left _ _

theorem jdScore_range (v : VisaIntel) : 0 ≤ jdScore v ∧ jdScore v ≤ 10 := by
  rw [jdScore]; split_ifs <;> omega

theorem salaryThresholdScore_range (j : Job) (p : Profile) :
    0 ≤ salaryThresholdScore j p ∧ salaryThresholdScore j p ≤ 10 := by
  rw [salaryThresholdScore]
  split_ifs <;> omega

theorem visaAdditiveSum_range (j : Job) (v : VisaIntel) (p : Profile) :
    0 ≤ visaAdditiveSum j v p ∧ visaAdditiveSum j v p ≤ 100 := by
  rw [visaAdditiveSum]
  have h1 := registryScore_range v
  have h2 := activityScore_range v
  have h3 := communityScore_range v
  have h4 := jdScore_range v
  have h5 := salaryThresholdScore_range j p
  omega

theorem visa_total_range (j : Job) (v : VisaIntel) (p : Profile) :
    InRange (calculateVisaScore j v p).total := by
  rw [visa_total_eq]
  exact clamp_range _

theorem locationMatch_range (j : Job) (p : Profile) :
    0 ≤ (calculateLocationMatch j p).score ∧ (calculateLocationMatch j p).score ≤ 25 := by
  simp only [calculateLocationMatch]
  split_ifs <;> simp

theorem salaryMatch_range (j : Job) (p : Profile) :
    0 ≤ (calculateSalaryMatch j p).score ∧ (calculateSalaryMatch j p).score ≤ 25 := by
  simp only [calculateSalaryMatch]
  split_ifs <;> simp

theorem roleMatch_range (j : Job) (p : Profile) :
    0 ≤ (calculateRoleMatch j p).score ∧ (calculateRoleMatch j p).score ≤ 25 := by
  simp only [calculateRoleMatch]
  split_ifs <;> simp

theorem experienceMatch_range (j : Job) (p : Profile) :
    0 ≤ (calculateExperienceMatch j p).score ∧
      (calculateExperienceMatch j p).score ≤ 15 := by
  simp only [calculateExperienceMatch]
  split_ifs <;> simp

theorem industryMatch_range (j : Job) (p : Profile) :
    0 ≤ (calculateIndustryMatch j p).score ∧ (calculateIndustryMatch j p).score ≤ 10 := by
  simp only [calculateIndustryMatch]
  split_ifs <;> simp

theorem relevance_total_range (j : Job) (p : Profile) :
    InRange (calculateJobRelevanceScore j p).total := by
  have h1 := locationMatch_range j p
  have h2 := salaryMatch_range j p
  have h3 := roleMatch_range j p
  have h4 := experienceMatch_range j p
  have h5 := industryMatch_range j p
  constructor
  · show 0 ≤ min 100 _
    omega
  · exact min_le_left _ _

/-- Each weight of a resolved weight record lies in the unit interval. -/
def WeightsInUnit (w : Weights) : Prop :=
  (0 ≤ w.visa_score_weight ∧ w.visa_score_weight ≤ 1) ∧
  (0 ≤ w.resume_score_weight ∧ w.resume_score_weight ≤ 1) ∧
  (0 ≤ w.relevance_score_weight ∧ w.relevance_score_weight ≤ 1) ∧
  (0 ≤ w.domain_skills_weight ∧ w.domain_skills_weight ≤ 1) ∧
  (0 ≤ w.core_pm_skills_weight ∧ w.core_pm_skills_weight ≤ 1) ∧
  (0 ≤ w.tools_skills_weight ∧ w.tools_skills_weight ≤ 1) ∧
  (0 ≤ w.tech_skills_weight ∧ w.tech_skills_weight ≤ 1)

/-- A provided optional weight, when present, lies in the unit interval. -/
def OptWeightOk (o : Option ℚ) : Prop :=
  match o with
  | none => True
  | some x => 0 ≤ x ∧ x ≤ 1

/-- Every weight of the config that is present lies in the unit interval. -/
def ConfigWeightsOk (c : ScoringConfig) : Prop :=
  OptWeightOk c.visa_score_weight ∧ OptWeightOk c.resume_score_weight ∧
  OptWeightOk c.relevance_score_weight ∧ OptWeightOk c.domain_skills_weight ∧
  OptWeightOk c.core_pm_skills_weight ∧ OptWeightOk c.tools_skills_weight ∧
  OptWeightOk c.tech_skills_weight

theorem jsOrNum_unit {o : Option ℚ} {d : ℚ} (hd0 : 0 ≤ d) (hd1 : d ≤ 1)
    (h : OptWeightOk o) : 0 ≤ jsOrNum o d ∧ jsOrNum o d ≤ 1 := by
  cases o with
  | none => exact ⟨hd0, hd1⟩
  | some x =>
    simp only [jsOrNum]
    split_ifs
    · exact ⟨hd0, hd1⟩
    · exact h

theorem resolveWeights_unit (c : ScoringConfig) (h : ConfigWeightsOk c) :
    WeightsInUnit (resolveWeights c) := by
  obtain ⟨h1, h2, h3, h4, h5, h6, h7⟩ := h
  exact ⟨jsOrNum_unit (by norm_num) (by norm_num) h1,
    jsOrNum_unit (by norm_num) (by norm_num) h2,
    jsOrNum_unit (by norm_num) (by norm_num) h3,
    jsOrNum_unit (by norm_num) (by norm_num) h4,
    jsOrNum_unit (by norm_num) (by norm_num) h5,
    jsOrNum_unit (by norm_num) (by norm_num) h6,
    jsOrNum_unit (by norm_num) (by norm_num) h7⟩

theorem resume_breakdown_domain (j : Job) (p : Profile) (w : Weights) :
    (calculateResumeMatchScore j p w).breakdown.domain_match.score =
      tierPoints 50 w.domain_skills_weight
        (calculateSkillMatch (p.skills_must_have_domain.map jsToLower)
          (j.skills.map jsToLower ++ j.domains.map jsToLower)) := rfl

theorem resume_breakdown_domain_pct (j : Job) (p : Profile) (w : Weights) :
    (calculateResumeMatchScore j p w).breakdown.domain_match.match_percentage =
      calculateSkillMatch (p.skills_must_have_domain.map jsToLower)
        (j.skills.map jsToLower ++ j.domains.map jsToLower) := rfl

theorem resume_breakdown_pm (j : Job) (p : Profile) (w : Weights) :
    (calculateResumeMatchScore j p w).breakdown.core_pm_match.score =
      tierPoints 30 w.core_pm_skills_weight
        (calculateSkillMatch (p.skills_must_have_core_pm.map jsToLower)
          (j.skills.map jsToLower)) := rfl

theorem resume_breakdown_pm_pct (j : Job) (p : Profile) (w : Weights) :
    (calculateResumeMatchScore j p w).breakdown.core_pm_match.match_percentage =
      calculateSkillMatch (p.skills_must_have_core_pm.map jsToLower)
        (j.skills.map jsToLower) := rfl

theorem resume_breakdown_tools (j : Job) (p : Profile) (w : Weights) :
    (calculateResumeMatchScore j p w).breakdown.tools_match.score =
      tierPoints 15 w.tools_skills_weight
        (calculateSkillMatch (p.skills_good_to_have.map jsToLower)
          (j.skills.map jsToLower)) := rfl

theorem resume_breakdown_tools_pct (j : Job) (p : Profile) (w : Weights) :
    (calculateResumeMatchScore j p w).breakdown.tools_match.match_percentage =
      calculateSkillMatch (p.skills_good_to_have.map jsToLower)
        (j.skills.map jsToLower) := rfl

theorem resume_breakdown_tech (j : Job) (p : Profile) (w : Weights) :
    (calculateResumeMatchScore j p w).breakdown.technical_match.score =
      tierPoints 5 w.tech_skills_weight
        (calculateSkillMatch (p.skills_okay_to_have.map jsToLower)
          (j.skills.map jsToLower)) := rfl

theorem resume_breakdown_tech_pct (j : Job) (p : Profile) (w : Weights) :
    (calculateResumeMatchScore j p w).breakdown.technical_match.match_percentage =
      calculateSkillMatch (p.skills_okay_to_have.map jsToLower)
        (j.skills.map jsToLower) := rfl

theorem resume_total_eq (j : Job) (p : Profile) (w : Weights) :
    (calculateResumeMatchScore j p w).total =
      min 100 ((calculateResumeMatchScore j p w).breakdown.domain_match.score +
        (calculateResumeMatchScore j p w).breakdown.core_pm_match.score +
        (calculateResumeMatchScore j p w).breakdown.tools_match.score +
        (calculateResumeMatchScore j p w).breakdown.technical_match.score) := rfl

theorem tierPoints_zero (mp w : ℚ) : tierPoints mp w 0 = 0 :=
  jround_eq_of (by push_cast; ring)

theorem resume_domain_range (j : Job) (p : Profile) (w : Weights)
    (hw : WeightsInUnit w) :
    InRange (calculateResumeMatchScore j p w).breakdown.domain_match.score := by
  rw [resume_breakdown_domain]
  exact ⟨tierPoints_nonneg (by norm_num) hw.2.2.2.1.1 (skillMatch_nonneg _ _),
    tierPoints_le (by norm_num) hw.2.2.2.1.1 hw.2.2.2.1.2 (skillMatch_nonneg _ _)
      (skillMatch_le_100 _ _) (by norm_num)⟩

theorem resume_pm_range (j : Job) (p : Profile) (w : Weights)
    (hw : WeightsInUnit w) :
    InRange (calculateResumeMatchScore j p w).breakdown.core_pm_match.score := by
  rw [resume_breakdown_pm]
  exact ⟨tierPoints_nonneg (by norm_num) hw.2.2.2.2.1.1 (skillMatch_nonneg _ _),
    tierPoints_le (by norm_num) hw.2.2.2.2.1.1 hw.2.2.2.2.1.2 (skillMatch_nonneg _ _)
      (skillMatch_le_100 _ _) (by norm_num)⟩

theorem resume_tools_range (j : Job) (p : Profile) (w : Weights)
    (hw : WeightsInUnit w) :
    InRange (calculateResumeMatchScore j p w).breakdown.tools_match.score := by
  rw [resume_breakdown_tools]
  exact ⟨tierPoints_nonneg (by norm_num) hw.2.2.2.2.2.1.1 (skillMatch_nonneg _ _),
    tierPoints_le (by norm_num) hw.2.2.2.2.2.1.1 hw.2.2.2.2.2.1.2 (skillMatch_nonneg _ _)
      (skillMatch_le_100 _ _) (by norm_num)⟩

theorem resume_tech_range (j : Job) (p : Profile) (w : Weights)
    (hw : WeightsInUnit w) :
    InRange (calculateResumeMatchScore j p w).breakdown.technical_match.score := by
  rw [resume_breakdown_tech]
  exact ⟨tierPoints_nonneg (by norm_num) hw.2.2.2.2.2.2.1 (skillMatch_nonneg _ _),
    tierPoints_le (by norm_num) hw.2.2.2.2.2.2.1 hw.2.2.2.2.2.2.2 (skillMatch_nonneg _ _)
      (skillMatch_le_100 _ _) (by norm_num)⟩

theorem resume_total_range (j : Job) (p : Profile) (w : Weights)
    (hw : WeightsInUnit w) :
    InRange (calculateResumeMatchScore j p w).total := by
  have h1 := resume_domain_range j p w hw
  have h2 := resume_pm_range j p w hw
  have h3 := resume_tools_range j p w hw
  have h4 := resume_tech_range j p w hw
  rw [resume_total_eq]
  rw [InRange] at h1 h2 h3 h4 ⊢
  omega

/-! Concrete inputs used by witnesses and counterexamples. -/

/-- A job record with every field absent or empty. -/
def emptyJob : Job := {}

/-- A profile record with every field absent or empty. -/
def emptyProfile : Profile := {}

/-- A visa intelligence record with every signal off. -/
def emptyIntel : VisaIntel := {}

/-- A config with no weight overrides: all defaults apply. -/
def emptyConfig : ScoringConfig := {}

/-- A job tagged with one skill. -/
def agileJob : Job := { skills := ["agile"] }

/-- A profile whose four skill tiers each hold that same skill. -/
def agileProfile : Profile :=
  { skills_must_have_domain := ["agile"]
    skills_must_have_core_pm := ["agile"]
    skills_good_to_have := ["agile"]
    skills_okay_to_have := ["agile"] }

/-- A config that sets every weight to 1. -/
def oneConfig : ScoringConfig :=
  ⟨some 1, some 1, some 1, some 1, some 1, some 1, some 1⟩

theorem skillMatch_agile : calculateSkillMatch ["agile"] ["agile"] = 100 := by
  have hfil : (["agile"].filter fun us =>
      ["agile"].any fun js => jsIncludes js us || jsIncludes us js) = ["agile"] := by decide
  rw [calculateSkillMatch, if_neg (by simp)]
  simp only [hfil]
  exact jround_eq_of (by push_cast; norm_num)

theorem map_lower_agile : ["agile"].map jsToLower = ["agile"] := by decide

/-! Claim theorems. -/

/-- C2 (amended): for every signal, the visa total with explicitNoSponsorship
    set equals the sum of the five additive components minus 30 floored at 0,
    which is max(0, total-without-penalty minus 30); it is strictly lower than
    the total for the identical signal with the flag false whenever that total
    is positive (with both totals 0, e.g. on an all-zero signal, there is no
    strict drop). -/
theorem visa_penalty_floor (j : Job) (p : Profile) (v : VisaIntel) :
    (calculateVisaScore j { v with explicit_no_sponsorship := true } p).total =
      max 0 (visaAdditiveSum j { v with explicit_no_sponsorship := true } p - 30) ∧
    (calculateVisaScore j { v with explicit_no_sponsorship := true } p).total =
      max 0 ((calculateVisaScore j { v with explicit_no_sponsorship := false } p).total - 30) ∧
    (0 < (calculateVisaScore j { v with explicit_no_sponsorship := false } p).total →
      (calculateVisaScore j { v with explicit_no_sponsorship := true } p).total <
        (calculateVisaScore j { v with explicit_no_sponsorship := false } p).total) := by
  obtain ⟨hS0, hS1⟩ := visaAdditiveSum_range j { v with explicit_no_sponsorship := false } p
  have ht : (calculateVisaScore j { v with explicit_no_sponsorship := true } p).total =
      min 100 (max 0 (visaAdditiveSum j { v with explicit_no_sponsorship := false } p - 30)) :=
    rfl
  have hf : (calculateVisaScore j { v with explicit_no_sponsorship := false } p).total =
      min 100 (max 0 (visaAdditiveSum j { v with explicit_no_sponsorship := false } p - 0)) :=
    rfl
  have hsum : visaAdditiveSum j { v with explicit_no_sponsorship := true } p =
      visaAdditiveSum j { v with explicit_no_sponsorship := false } p := rfl
  refine ⟨?_, ?_, ?_⟩
  · rw [ht, hsum]
    omega
  · rw [ht, hf]
    omega
  · intro hpos
    rw [hf] at hpos
    rw [ht, hf]
    omega

/-- Witness for C2: with only a registry match, the no-penalty total is 40
    and the penalty drops the total strictly, to 10. -/
theorem visa_penalty_floor_witness :
    0 < (calculateVisaScore emptyJob
        { { emptyIntel with registry_match := true } with explicit_no_sponsorship := false }
        emptyProfile).total ∧
    (calculateVisaScore emptyJob
        { { emptyIntel with registry_match := true } with explicit_no_sponsorship := true }
        emptyProfile).total <
      (calculateVisaScore emptyJob
        { { emptyIntel with registry_match := true } with explicit_no_sponsorship := false }
        emptyProfile).total :=
  ⟨by decide,
    (visa_penalty_floor emptyJob emptyProfile { emptyIntel with registry_match := true }).2.2
      (by decide)⟩

/-- Counterexample for C2 as stated: on the all-zero signal the totals with
    and without explicitNoSponsorship are both 0, so the penalised total is
    not strictly lower. -/
theorem visa_penalty_strict_cex :
    (calculateVisaScore emptyJob { emptyIntel with explicit_no_sponsorship := true }
        emptyProfile).total =
      (calculateVisaScore emptyJob { emptyIntel with explicit_no_sponsorship := false }
        emptyProfile).total := by decide

/-- C3 (amended): the recent-activity component equals min(20, count*5) only
    when the signal's recent_activity flag is set; otherwise it is 0 regardless
    of recentActivityCount. The visa total adds exactly this component to the
    other four factors before the penalty floor and cap. -/
theorem visa_recent_activity_component (j : Job) (v : VisaIntel) (p : Profile) :
    (calculateVisaScore j v p).breakdown.recent_activity.score =
      (if v.recent_activity then min 20 ((v.recent_activity_count : ℤ) * 5) else 0) ∧
    (calculateVisaScore j v p).total =
      min 100 (max 0 (registryScore v +
        (if v.recent_activity then min 20 ((v.recent_activity_count : ℤ) * 5) else 0) +
        communityScore v + jdScore v + salaryThresholdScore j p - visaPenalties v)) := by
  refine ⟨(visa_breakdown_activity j v p).trans rfl, ?_⟩
  rw [visa_total_eq, visaAdditiveSum, activityScore]

/-- Counterexample for C3 as stated: a signal with recentActivityCount = 1 but
    the recent_activity flag unset contributes 0, not min(20, 5). -/
theorem visa_recent_activity_cex :
    (calculateVisaScore emptyJob
        { emptyIntel with recent_activity := false, recent_activity_count := 1 }
        emptyProfile).breakdown.recent_activity.score ≠ min 20 ((1 : ℤ) * 5) := by decide

/-- C5: the recommendation action follows the ordered decision table over
    (overall, visa) with inclusive boundaries; overall 85 with visa 80 gives
    APPLY NOW and overall 84 with visa 80 falls to STRONGLY CONSIDER. -/
theorem recommendation_decision_table (o v r : ℤ) :
    (getRecommendation o v r).action =
      (if o ≥ 85 ∧ v ≥ 80 then "APPLY NOW"
       else if o ≥ 75 ∧ v ≥ 60 then "STRONGLY CONSIDER"
       else if o ≥ 65 then "CONSIDER"
       else if o ≥ 50 then "REVIEW CAREFULLY"
       else "SKIP") ∧
    (getRecommendation 85 80 r).action = "APPLY NOW" ∧
    (getRecommendation 84 80 r).action = "STRONGLY CONSIDER" := by
  refine ⟨?_, ?_, ?_⟩
  · rw [getRecommendation]
    split_ifs <;> rfl
  · rw [getRecommendation]
    norm_num
  · rw [getRecommendation]
    norm_num

/-- C7: the relevance industry factor scores 10 on a direct (lowercased)
    intersection of profile industries with job domains, else 7 when both
    sides contain a shared entry of the fixed common-industries list, else 3;
    it is never 0. -/
theorem industry_match_never_zero (j : Job) (p : Profile) :
    (calculateIndustryMatch j p).score =
      (if (p.industries.map jsToLower).any fun ind => (j.domains.map jsToLower).contains ind
       then 10
       else if commonIndustries.any fun ci =>
           (j.domains.map jsToLower).contains ci && (p.industries.map jsToLower).contains ci
       then 7
       else 3) ∧
    (calculateIndustryMatch j p).score ≠ 0 := by
  constructor
  · simp only [calculateIndustryMatch]
    split_ifs <;> rfl
  · simp only [calculateIndustryMatch]
    split_ifs <;> simp

/-- C9: when the profile salary expectation minimum or the job minimum salary
    is absent, the relevance salary factor is exactly the neutral 12 with
    match type unknown. -/
theorem salary_missing_neutral (j : Job) (p : Profile)
    (h : (expectationOf p).min = none ∨ j.salary_min = none) :
    calculateSalaryMatch j p = ⟨12, "unknown"⟩ := by
  rcases h with h | h <;> simp [calculateSalaryMatch, truthyNum, h]

/-- Witness for C9 at a profile with no salary expectation. -/
theorem salary_missing_neutral_witness :
    (expectationOf emptyProfile).min = none ∧
    calculateSalaryMatch emptyJob emptyProfile = ⟨12, "unknown"⟩ :=
  ⟨rfl, salary_missing_neutral emptyJob emptyProfile (Or.inl rfl)⟩

/-- C10: a weight explicitly set to 0 is falsy under the JS default merge, so
    the whole multi-score result is as if the weight were absent, and the
    resolved weight is the documented default, for each of the seven weights. -/
theorem zero_weight_uses_default (j : Job) (p : Profile) (v : VisaIntel)
    (c : ScoringConfig) :
    (calculateMultiScore j p v { c with visa_score_weight := some 0 } =
        calculateMultiScore j p v { c with visa_score_weight := none } ∧
      (resolveWeights { c with visa_score_weight := some 0 }).visa_score_weight = 40 / 100) ∧
    (calculateMultiScore j p v { c with resume_score_weight := some 0 } =
        calculateMultiScore j p v { c with resume_score_weight := none } ∧
      (resolveWeights { c with resume_score_weight := some 0 }).resume_score_weight = 35 / 100) ∧
    (calculateMultiScore j p v { c with relevance_score_weight := some 0 } =
        calculateMultiScore j p v { c with relevance_score_weight := none } ∧
      (resolveWeights { c with relevance_score_weight := some 0 }).relevance_score_weight =
        25 / 100) ∧
    (calculateMultiScore j p v { c with domain_skills_weight := some 0 } =
        calculateMultiScore j p v { c with domain_skills_weight := none } ∧
      (resolveWeights { c with domain_skills_weight := some 0 }).domain_skills_weight =
        50 / 100) ∧
    (calculateMultiScore j p v { c with core_pm_skills_weight := some 0 } =
        calculateMultiScore j p v { c with core_pm_skills_weight := none } ∧
      (resolveWeights { c with core_pm_skills_weight := some 0 }).core_pm_skills_weight =
        30 / 100) ∧
    (calculateMultiScore j p v { c with tools_skills_weight := some 0 } =
        calculateMultiScore j p v { c with tools_skills_weight := none } ∧
      (resolveWeights { c with tools_skills_weight := some 0 }).tools_skills_weight =
        15 / 100) ∧
    (calculateMultiScore j p v { c with tech_skills_weight := some 0 } =
        calculateMultiScore j p v { c with tech_skills_weight := none } ∧
      (resolveWeights { c with tech_skills_weight := some 0 }).tech_skills_weight = 5 / 100) := by
  have hcongr : ∀ c1 c2 : ScoringConfig, resolveWeights c1 = resolveWeights c2 →
      calculateMultiScore j p v c1 = calculateMultiScore j p v c2 := by
    intro c1 c2 h
    rw [calculateMultiScore, calculateMultiScore, h]
  refine ⟨⟨hcongr _ _ ?_, ?_⟩, ⟨hcongr _ _ ?_, ?_⟩, ⟨hcongr _ _ ?_, ?_⟩, ⟨hcongr _ _ ?_, ?_⟩,
    ⟨hcongr _ _ ?_, ?_⟩, ⟨hcongr _ _ ?_, ?_⟩, ⟨hcongr _ _ ?_, ?_⟩⟩ <;>
    simp [resolveWeights, jsOrNum]

theorem skillMatch_nil (js : List String) : calculateSkillMatch [] js = 0 := by
  simp [calculateSkillMatch]

theorem relevance_breakdown_location (j : Job) (p : Profile) :
    (calculateJobRelevanceScore j p).breakdown.location = calculateLocationMatch j p := rfl

theorem relevance_breakdown_salary (j : Job) (p : Profile) :
    (calculateJobRelevanceScore j p).breakdown.salary = calculateSalaryMatch j p := rfl

theorem relevance_breakdown_role (j : Job) (p : Profile) :
    (calculateJobRelevanceScore j p).breakdown.role = calculateRoleMatch j p := rfl

theorem relevance_breakdown_experience (j : Job) (p : Profile) :
    (calculateJobRelevanceScore j p).breakdown.experience =
      calculateExperienceMatch j p := rfl

theorem relevance_breakdown_industry (j : Job) (p : Profile) :
    (calculateJobRelevanceScore j p).breakdown.industry = calculateIndustryMatch j p := rfl

/-- C1: for a config whose provided weights lie in [0,1], the overall score,
    the three component totals, and every per-factor score recorded in the
    visa, resume and relevance breakdowns lie in [0,100]. -/
theorem multiScore_all_scores_in_range (job : Job) (p : Profile) (v : VisaIntel)
    (config : ScoringConfig) (h : ConfigWeightsOk config) :
    InRange (calculateMultiScore job p v config).overall_score ∧
    InRange (calculateMultiScore job p v config).visa_score ∧
    InRange (calculateMultiScore job p v config).resume_match_score ∧
    InRange (calculateMultiScore job p v config).job_relevance_score ∧
    InRange (calculateMultiScore job p v config).breakdown.visa.breakdown.registry_match.score ∧
    InRange (calculateMultiScore job p v config).breakdown.visa.breakdown.recent_activity.score ∧
    InRange
      (calculateMultiScore job p v config).breakdown.visa.breakdown.community_signals.score ∧
    InRange (calculateMultiScore job p v config).breakdown.visa.breakdown.jd_keywords.score ∧
    InRange
      (calculateMultiScore job p v config).breakdown.visa.breakdown.salary_threshold.score ∧
    InRange (calculateMultiScore job p v config).breakdown.resume.breakdown.domain_match.score ∧
    InRange
      (calculateMultiScore job p v config).breakdown.resume.breakdown.core_pm_match.score ∧
    InRange (calculateMultiScore job p v config).breakdown.resume.breakdown.tools_match.score ∧
    InRange
      (calculateMultiScore job p v config).breakdown.resume.breakdown.technical_match.score ∧
    InRange (calculateMultiScore job p v config).breakdown.relevance.breakdown.location.score ∧
    InRange (calculateMultiScore job p v config).breakdown.relevance.breakdown.salary.score ∧
    InRange (calculateMultiScore job p v config).breakdown.relevance.breakdown.role.score ∧
    InRange
      (calculateMultiScore job p v config).breakdown.relevance.breakdown.experience.score ∧
    InRange (calculateMultiScore job p v config).breakdown.relevance.breakdown.industry.score := by
  have hw := resolveWeights_unit config h
  have hbv : (calculateMultiScore job p v config).breakdown.visa =
      calculateVisaScore job v p := rfl
  have hbr : (calculateMultiScore job p v config).breakdown.resume =
      calculateResumeMatchScore job p (resolveWeights config) := rfl
  have hbl : (calculateMultiScore job p v config).breakdown.relevance =
      calculateJobRelevanceScore job p := rfl
  refine ⟨clamp_range _, ?_, ?_, ?_, ?_, ?_, ?_, ?_, ?_, ?_, ?_, ?_, ?_, ?_, ?_, ?_, ?_, ?_⟩
  · exact visa_total_range job v p
  · exact resume_total_range job p _ hw
  · exact relevance_total_range job p
  · rw [hbv, visa_breakdown_registry]
    have := registryScore_range v
    exact ⟨this.1, by omega⟩
  · rw [hbv, visa_breakdown_activity]
    have := activityScore_range v
    exact ⟨this.1, by omega⟩
  · rw [hbv, visa_breakdown_community]
    have := communityScore_range v
    exact ⟨this.1, by omega⟩
  · rw [hbv, visa_breakdown_jd]
    have := jdScore_range v
    exact ⟨this.1, by omega⟩
  · rw [hbv, visa_breakdown_salary]
    have := salaryThresholdScore_range job p
    exact ⟨this.1, by omega⟩
  · rw [hbr]
    exact resume_domain_range job p _ hw
  · rw [hbr]
    exact resume_pm_range job p _ hw
  · rw [hbr]
    exact resume_tools_range job p _ hw
  · rw [hbr]
    exact resume_tech_range job p _ hw
  · rw [hbl, relevance_breakdown_location]
    have := locationMatch_range job p
    exact ⟨this.1, by omega⟩
  · rw [hbl, relevance_breakdown_salary]
    have := salaryMatch_range job p
    exact ⟨this.1, by omega⟩
  · rw [hbl, relevance_breakdown_role]
    have := roleMatch_range job p
    exact ⟨this.1, by omega⟩
  · rw [hbl, relevance_breakdown_experience]
    have := experienceMatch_range job p
    exact ⟨this.1, by omega⟩
  · rw [hbl, relevance_breakdown_industry]
    have := industryMatch_range job p
    exact ⟨this.1, by omega⟩

/-- Witness for C1 at the default config and empty inputs. -/
theorem multiScore_all_scores_in_range_witness :
    ConfigWeightsOk emptyConfig ∧
    InRange (calculateMultiScore emptyJob emptyProfile emptyIntel emptyConfig).overall_score :=
  ⟨⟨trivial, trivial, trivial, trivial, trivial, trivial, trivial⟩,
    (multiScore_all_scores_in_range emptyJob emptyProfile emptyIntel emptyConfig
      ⟨trivial, trivial, trivial, trivial, trivial, trivial, trivial⟩).1⟩

theorem agile_pct_domain (w : Weights) :
    (calculateResumeMatchScore agileJob agileProfile w).breakdown.domain_match.match_percentage =
      100 := by
  rw [resume_breakdown_domain_pct,
    show agileProfile.skills_must_have_domain = ["agile"] from rfl,
    show agileJob.skills = ["agile"] from rfl,
    show agileJob.domains = ([] : List String) from rfl]
  simp only [map_lower_agile, List.map_nil, List.append_nil]
  exact skillMatch_agile

theorem agile_pct_pm (w : Weights) :
    (calculateResumeMatchScore agileJob agileProfile w).breakdown.core_pm_match.match_percentage =
      100 := by
  rw [resume_breakdown_pm_pct,
    show agileProfile.skills_must_have_core_pm = ["agile"] from rfl,
    show agileJob.skills = ["agile"] from rfl]
  simp only [map_lower_agile]
  exact skillMatch_agile

theorem agile_pct_tools (w : Weights) :
    (calculateResumeMatchScore agileJob agileProfile w).breakdown.tools_match.match_percentage =
      100 := by
  rw [resume_breakdown_tools_pct,
    show agileProfile.skills_good_to_have = ["agile"] from rfl,
    show agileJob.skills = ["agile"] from rfl]
  simp only [map_lower_agile]
  exact skillMatch_agile

theorem agile_pct_tech (w : Weights) :
    (calculateResumeMatchScore agileJob agileProfile w).breakdown.technical_match.match_percentage =
      100 := by
  rw [resume_breakdown_tech_pct,
    show agileProfile.skills_okay_to_have = ["agile"] from rfl,
    show agileJob.skills = ["agile"] from rfl]
  simp only [map_lower_agile]
  exact skillMatch_agile

/-- C4: each resume tier score equals round(maxPoints * weight * 2 *
    matchPct/100) on the recorded match percentage, and with
    domain_skills_weight = 0.50 a 100 percent domain match scores exactly 50. -/
theorem resume_tier_points_formula (j : Job) (p : Profile) (w : Weights) :
    ((calculateResumeMatchScore j p w).breakdown.domain_match.score =
      tierPoints 50 w.domain_skills_weight
        (calculateResumeMatchScore j p w).breakdown.domain_match.match_percentage) ∧
    ((calculateResumeMatchScore j p w).breakdown.core_pm_match.score =
      tierPoints 30 w.core_pm_skills_weight
        (calculateResumeMatchScore j p w).breakdown.core_pm_match.match_percentage) ∧
    ((calculateResumeMatchScore j p w).breakdown.tools_match.score =
      tierPoints 15 w.tools_skills_weight
        (calculateResumeMatchScore j p w).breakdown.tools_match.match_percentage) ∧
    ((calculateResumeMatchScore j p w).breakdown.technical_match.score =
      tierPoints 5 w.tech_skills_weight
        (calculateResumeMatchScore j p w).breakdown.technical_match.match_percentage) ∧
    (w.domain_skills_weight = 50 / 100 →
      (calculateResumeMatchScore j p w).breakdown.domain_match.match_percentage = 100 →
      (calculateResumeMatchScore j p w).breakdown.domain_match.score = 50) := by
  refine ⟨rfl, rfl, rfl, rfl, ?_⟩
  intro h1 h2
  rw [resume_breakdown_domain_pct] at h2
  rw [resume_breakdown_domain, h1, h2]
  exact jround_eq_of (by push_cast; norm_num)

/-- Witness for C4: a single-skill job and profile give a 100 percent domain
    match, and with the default domain weight 0.50 the domain score is 50. -/
theorem resume_tier_points_formula_witness :
    (resolveWeights emptyConfig).domain_skills_weight = 50 / 100 ∧
    (calculateResumeMatchScore agileJob agileProfile
        (resolveWeights emptyConfig)).breakdown.domain_match.match_percentage = 100 ∧
    (calculateResumeMatchScore agileJob agileProfile
        (resolveWeights emptyConfig)).breakdown.domain_match.score = 50 :=
  ⟨rfl, agile_pct_domain (resolveWeights emptyConfig),
    (resume_tier_points_formula agileJob agileProfile (resolveWeights emptyConfig)).2.2.2.2
      rfl (agile_pct_domain (resolveWeights emptyConfig))⟩

theorem agile_one_domain :
    (calculateResumeMatchScore agileJob agileProfile
      ⟨1, 1, 1, 1, 1, 1, 1⟩).breakdown.domain_match.score = 100 := by
  rw [resume_breakdown_domain,
    ← resume_breakdown_domain_pct agileJob agileProfile ⟨1, 1, 1, 1, 1, 1, 1⟩,
    agile_pct_domain]
  show tierPoints 50 1 100 = 100
  exact jround_eq_of (by push_cast; norm_num)

theorem agile_one_pm :
    (calculateResumeMatchScore agileJob agileProfile
      ⟨1, 1, 1, 1, 1, 1, 1⟩).breakdown.core_pm_match.score = 60 := by
  rw [resume_breakdown_pm,
    ← resume_breakdown_pm_pct agileJob agileProfile ⟨1, 1, 1, 1, 1, 1, 1⟩,
    agile_pct_pm]
  show tierPoints 30 1 100 = 60
  exact jround_eq_of (by push_cast; norm_num)

theorem agile_one_tools :
    (calculateResumeMatchScore agileJob agileProfile
      ⟨1, 1, 1, 1, 1, 1, 1⟩).breakdown.tools_match.score = 30 := by
  rw [resume_breakdown_tools,
    ← resume_breakdown_tools_pct agileJob agileProfile ⟨1, 1, 1, 1, 1, 1, 1⟩,
    agile_pct_tools]
  show tierPoints 15 1 100 = 30
  exact jround_eq_of (by push_cast; norm_num)

theorem agile_one_tech :
    (calculateResumeMatchScore agileJob agileProfile
      ⟨1, 1, 1, 1, 1, 1, 1⟩).breakdown.technical_match.score = 10 := by
  rw [resume_breakdown_tech,
    ← resume_breakdown_tech_pct agileJob agileProfile ⟨1, 1, 1, 1, 1, 1, 1⟩,
    agile_pct_tech]
  show tierPoints 5 1 100 = 10
  exact jround_eq_of (by push_cast; norm_num)

/-- C6 (amended): the resume total is min(100, sum of the four breakdown tier
    scores); the sum equals the total exactly when it does not exceed 100, and
    with large weights the cap makes them differ. -/
theorem resume_breakdown_sum_cap (j : Job) (p : Profile) (w : Weights) :
    (calculateResumeMatchScore j p w).total =
      min 100 ((calculateResumeMatchScore j p w).breakdown.domain_match.score +
        (calculateResumeMatchScore j p w).breakdown.core_pm_match.score +
        (calculateResumeMatchScore j p w).breakdown.tools_match.score +
        (calculateResumeMatchScore j p w).breakdown.technical_match.score) ∧
    ((calculateResumeMatchScore j p w).breakdown.domain_match.score +
        (calculateResumeMatchScore j p w).breakdown.core_pm_match.score +
        (calculateResumeMatchScore j p w).breakdown.tools_match.score +
        (calculateResumeMatchScore j p w).breakdown.technical_match.score ≤ 100 →
      (calculateResumeMatchScore j p w).total =
        (calculateResumeMatchScore j p w).breakdown.domain_match.score +
          (calculateResumeMatchScore j p w).breakdown.core_pm_match.score +
          (calculateResumeMatchScore j p w).breakdown.tools_match.score +
          (calculateResumeMatchScore j p w).breakdown.technical_match.score) := by
  refine ⟨resume_total_eq j p w, ?_⟩
  intro hle
  rw [resume_total_eq]
  omega

/-- Witness for C6: on empty inputs every tier scores 0, the sum is within the
    cap, and the total equals the sum. -/
theorem resume_breakdown_sum_cap_witness :
    ((calculateResumeMatchScore emptyJob emptyProfile
        (resolveWeights emptyConfig)).breakdown.domain_match.score +
      (calculateResumeMatchScore emptyJob emptyProfile
        (resolveWeights emptyConfig)).breakdown.core_pm_match.score +
      (calculateResumeMatchScore emptyJob emptyProfile
        (resolveWeights emptyConfig)).breakdown.tools_match.score +
      (calculateResumeMatchScore emptyJob emptyProfile
        (resolveWeights emptyConfig)).breakdown.technical_match.score ≤ 100) ∧
    (calculateResumeMatchScore emptyJob emptyProfile (resolveWeights emptyConfig)).total =
      (calculateResumeMatchScore emptyJob emptyProfile
        (resolveWeights emptyConfig)).breakdown.domain_match.score +
      (calculateResumeMatchScore emptyJob emptyProfile
        (resolveWeights emptyConfig)).breakdown.core_pm_match.score +
      (calculateResumeMatchScore emptyJob emptyProfile
        (resolveWeights emptyConfig)).breakdown.tools_match.score +
      (calculateResumeMatchScore emptyJob emptyProfile
        (resolveWeights emptyConfig)).breakdown.technical_match.score := by
  have hd : (calculateResumeMatchScore emptyJob emptyProfile
      (resolveWeights emptyConfig)).breakdown.domain_match.score = 0 := by
    rw [resume_breakdown_domain, show emptyProfile.skills_must_have_domain = [] from rfl]
    rw [List.map_nil, skillMatch_nil, tierPoints_zero]
  have hpm : (calculateResumeMatchScore emptyJob emptyProfile
      (resolveWeights emptyConfig)).breakdown.core_pm_match.score = 0 := by
    rw [resume_breakdown_pm, show emptyProfile.skills_must_have_core_pm = [] from rfl]
    rw [List.map_nil, skillMatch_nil, tierPoints_zero]
  have hto : (calculateResumeMatchScore emptyJob emptyProfile
      (resolveWeights emptyConfig)).breakdown.tools_match.score = 0 := by
    rw [resume_breakdown_tools, show emptyProfile.skills_good_to_have = [] from rfl]
    rw [List.map_nil, skillMatch_nil, tierPoints_zero]
  have hte : (calculateResumeMatchScore emptyJob emptyProfile
      (resolveWeights emptyConfig)).breakdown.technical_match.score = 0 := by
    rw [resume_breakdown_tech, show emptyProfile.skills_okay_to_have = [] from rfl]
    rw [List.map_nil, skillMatch_nil, tierPoints_zero]
  have hle : (calculateResumeMatchScore emptyJob emptyProfile
        (resolveWeights emptyConfig)).breakdown.domain_match.score +
      (calculateResumeMatchScore emptyJob emptyProfile
        (resolveWeights emptyConfig)).breakdown.core_pm_match.score +
      (calculateResumeMatchScore emptyJob emptyProfile
        (resolveWeights emptyConfig)).breakdown.tools_match.score +
      (calculateResumeMatchScore emptyJob emptyProfile
        (resolveWeights emptyConfig)).breakdown.technical_match.score ≤ 100 := by
    rw [hd, hpm, hto, hte]
    norm_num
  exact ⟨hle,
    (resume_breakdown_sum_cap emptyJob emptyProfile (resolveWeights emptyConfig)).2 hle⟩

/-- Counterexample for C6 as stated: with every weight set to 1 (allowed by
    the quantification over weights and reachable through the config) and a
    fully matching profile, the four recorded tier scores sum to 200 while
    resume_match_score is capped at 100. -/
theorem resume_breakdown_sum_cex :
    (calculateResumeMatchScore agileJob agileProfile
        (resolveWeights oneConfig)).breakdown.domain_match.score +
      (calculateResumeMatchScore agileJob agileProfile
        (resolveWeights oneConfig)).breakdown.core_pm_match.score +
      (calculateResumeMatchScore agileJob agileProfile
        (resolveWeights oneConfig)).breakdown.tools_match.score +
      (calculateResumeMatchScore agileJob agileProfile
        (resolveWeights oneConfig)).breakdown.technical_match.score ≠
    (calculateResumeMatchScore agileJob agileProfile (resolveWeights oneConfig)).total := by
  have hw : resolveWeights oneConfig = ⟨1, 1, 1, 1, 1, 1, 1⟩ := by
    simp [resolveWeights, oneConfig, jsOrNum]
  rw [hw, resume_total_eq, agile_one_domain, agile_one_pm, agile_one_tools, agile_one_tech]
  norm_num

/-- C8: an empty user skill set gives a 0 match percentage and 0 tier points
    for its tier; with all four tiers empty the resume total is 0; and the
    relevance score does not read the skill tiers at all. -/
theorem resume_empty_tiers_zero (job : Job) (p : Profile) (w : Weights) :
    (∀ js : List String, calculateSkillMatch [] js = 0) ∧
    (p.skills_must_have_domain = [] →
      (calculateResumeMatchScore job p w).breakdown.domain_match.match_percentage = 0 ∧
      (calculateResumeMatchScore job p w).breakdown.domain_match.score = 0) ∧
    (p.skills_must_have_core_pm = [] →
      (calculateResumeMatchScore job p w).breakdown.core_pm_match.match_percentage = 0 ∧
      (calculateResumeMatchScore job p w).breakdown.core_pm_match.score = 0) ∧
    (p.skills_good_to_have = [] →
      (calculateResumeMatchScore job p w).breakdown.tools_match.match_percentage = 0 ∧
      (calculateResumeMatchScore job p w).breakdown.tools_match.score = 0) ∧
    (p.skills_okay_to_have = [] →
      (calculateResumeMatchScore job p w).breakdown.technical_match.match_percentage = 0 ∧
      (calculateResumeMatchScore job p w).breakdown.technical_match.score = 0) ∧
    (p.skills_must_have_domain = [] → p.skills_must_have_core_pm = [] →
      p.skills_good_to_have = [] → p.skills_okay_to_have = [] →
      (calculateResumeMatchScore job p w).total = 0) ∧
    (∀ d c t o : List String,
      calculateJobRelevanceScore job
        { p with
          skills_must_have_domain := d
          skills_must_have_core_pm := c
          skills_good_to_have := t
          skills_okay_to_have := o } =
        calculateJobRelevanceScore job p) := by
  refine ⟨skillMatch_nil, ?_, ?_, ?_, ?_, ?_, fun d c t o => rfl⟩
  · intro h
    constructor
    · rw [resume_breakdown_domain_pct, h, List.map_nil, skillMatch_nil]
    · rw [resume_breakdown_domain, h, List.map_nil, skillMatch_nil, tierPoints_zero]
  · intro h
    constructor
    · rw [resume_breakdown_pm_pct, h, List.map_nil, skillMatch_nil]
    · rw [resume_breakdown_pm, h, List.map_nil, skillMatch_nil, tierPoints_zero]
  · intro h
    constructor
    · rw [resume_breakdown_tools_pct, h, List.map_nil, skillMatch_nil]
    · rw [resume_breakdown_tools, h, List.map_nil, skillMatch_nil, tierPoints_zero]
  · intro h
    constructor
    · rw [resume_breakdown_tech_pct, h, List.map_nil, skillMatch_nil]
    · rw [resume_breakdown_tech, h, List.map_nil, skillMatch_nil, tierPoints_zero]
  · intro h1 h2 h3 h4
    rw [resume_total_eq]
    rw [resume_breakdown_domain, h1, List.map_nil, skillMatch_nil, tierPoints_zero]
    rw [resume_breakdown_pm, h2, List.map_nil, skillMatch_nil, tierPoints_zero]
    rw [resume_breakdown_tools, h3, List.map_nil, skillMatch_nil, tierPoints_zero]
    rw [resume_breakdown_tech, h4, List.map_nil, skillMatch_nil, tierPoints_zero]
    norm_num

/-- Witness for C8 at the all-empty profile: resume total 0, every hypothesis
    discharged by rfl. -/
theorem resume_empty_tiers_zero_witness :
    emptyProfile.skills_must_have_domain = [] ∧
    (calculateResumeMatchScore emptyJob emptyProfile (resolveWeights emptyConfig)).total = 0 :=
  ⟨rfl, (resume_empty_tiers_zero emptyJob emptyProfile
    (resolveWeights emptyConfig)).2.2.2.2.2.1 rfl rfl rfl rfl⟩

end JobScan
